import Mathlib

/-!
Shallow embedding of the PLCrashReporter sources under verification:

* `Source/PLCrashAsyncThread_arm.c` — the ARM thread-state model: register
  numbering, the validity bitset, volatile-register clearing and the
  DWARF register mapping table.
* `Source/PLCrashAsyncObjCSection.c` — the Objective-C metadata parser:
  the class cache, the ObjC1/ObjC2 parse dispatcher and the
  find-method search/call passes.

Machine integers are modelled as `Nat`; bit operations use `Nat.testBit`,
`Nat.ldiff` (bitwise and-not, i.e. `x & ~mask`) and `&&&`.  Byte-order
swaps (`image->byteorder->swap32/64`) are modelled as the identity: all
modelled values are already in native byte order, and no claim concerns
byte order.  Pointers and addresses are `Nat`.
-/

set_option maxRecDepth 4000

/- ===================== ARM thread state ===================== -/

/-- Register numbering of `plcrash_arm_regnum_t`.  Modelled from the spec:
the enum itself lives in a header that is not part of the provided sources;
the spec fixes the DWARF table order R0..R12, SP, LR, PC and describes
`valid_regs` as a bitset indexed by the register number. -/
def PLCRASH_ARM_R0 : Nat := 0
def PLCRASH_ARM_R1 : Nat := 1
def PLCRASH_ARM_R2 : Nat := 2
def PLCRASH_ARM_R3 : Nat := 3
def PLCRASH_ARM_R4 : Nat := 4
def PLCRASH_ARM_R5 : Nat := 5
def PLCRASH_ARM_R6 : Nat := 6
def PLCRASH_ARM_R7 : Nat := 7
def PLCRASH_ARM_R8 : Nat := 8
def PLCRASH_ARM_R9 : Nat := 9
def PLCRASH_ARM_R10 : Nat := 10
def PLCRASH_ARM_R11 : Nat := 11
def PLCRASH_ARM_R12 : Nat := 12
def PLCRASH_ARM_SP : Nat := 13
def PLCRASH_ARM_LR : Nat := 14
def PLCRASH_ARM_PC : Nat := 15
def PLCRASH_ARM_CPSR : Nat := 16
def PLCRASH_ARM_LAST_REG : Nat := PLCRASH_ARM_CPSR

/-- The ARM thread state: the fields of `arm_thread_state` (r[0..12], sp,
lr, pc, cpsr) together with the `valid_regs` bitset of
`plcrash_async_thread_state_t`. -/
structure ThreadState where
  r : Fin 13 → Nat
  sp : Nat
  lr : Nat
  pc : Nat
  cpsr : Nat
  valid_regs : Nat

/-- Modelled from the spec: `plcrash_async_thread_state_has_reg`
(PLCrashAsyncThread.c is not among the provided sources).  The spec states
that bit i of `valid_regs` is set iff register i holds a meaningful
value. -/
def plcrash_async_thread_state_has_reg (ts : ThreadState) (regnum : Nat) : Bool :=
  ts.valid_regs.testBit regnum

/-- All bits of a 64-bit word, the width of `valid_regs`. -/
def UINT64_MASK : Nat := 2 ^ 64 - 1

/-- Modelled from the spec: `plcrash_async_thread_state_clear_reg`
clears the validity bit of one register (`valid_regs &= ~(1ULL<<regnum)`;
on a 64-bit field the complement `~(1<<r)` is `(2^64-1) ^^^ (1<<<r)`). -/
def plcrash_async_thread_state_clear_reg (ts : ThreadState) (regnum : Nat) : ThreadState :=
  { ts with valid_regs := ts.valid_regs &&& (UINT64_MASK ^^^ (1 <<< regnum)) }

/-- Source line 229: `PLCRASH_ARM_LAST_REG+1`. -/
def plcrash_async_thread_state_get_reg_count : Nat := PLCRASH_ARM_LAST_REG + 1

/-- Source lines 62-70: the ARM callee-preserved general-purpose
registers. -/
def arm_nonvolatile_registers : List Nat :=
  [PLCRASH_ARM_R4, PLCRASH_ARM_R5, PLCRASH_ARM_R6, PLCRASH_ARM_R7,
   PLCRASH_ARM_R8, PLCRASH_ARM_R10, PLCRASH_ARM_R11]

/-- Source lines 105-164: `plcrash_async_thread_state_get_reg`.  Returns
the stored register value; the `default:` branch traps
(`__builtin_trap`), modelled as `none`. -/
def plcrash_async_thread_state_get_reg (ts : ThreadState) (regnum : Nat) : Option Nat :=
  match regnum with
  | 0 => some (ts.r 0)      -- PLCRASH_ARM_R0
  | 1 => some (ts.r 1)
  | 2 => some (ts.r 2)
  | 3 => some (ts.r 3)
  | 4 => some (ts.r 4)
  | 5 => some (ts.r 5)
  | 6 => some (ts.r 6)
  | 7 => some (ts.r 7)
  | 8 => some (ts.r 8)
  | 9 => some (ts.r 9)
  | 10 => some (ts.r 10)
  | 11 => some (ts.r 11)
  | 12 => some (ts.r 12)    -- PLCRASH_ARM_R12
  | 13 => some ts.sp        -- PLCRASH_ARM_SP
  | 14 => some ts.lr        -- PLCRASH_ARM_LR
  | 15 => some ts.pc        -- PLCRASH_ARM_PC
  | 16 => some ts.cpsr      -- PLCRASH_ARM_CPSR
  | _ => none               -- default: __builtin_trap()

/-- The preservation check of the clear_volatiles loop (source lines
297-303): linear scan of `arm_nonvolatile_registers` for `reg`. -/
def arm_preserved (reg : Nat) : Bool :=
  arm_nonvolatile_registers.any (fun t => t == reg)

/-- One iteration of the loop body of
`plcrash_async_thread_state_clear_volatile_regs` (source lines 291-308):
skip unset registers, look the register up in the preservation table,
clear it when not preserved. -/
def clear_volatile_step (s : ThreadState) (reg : Nat) : ThreadState :=
  if !plcrash_async_thread_state_has_reg s reg then s
  else if arm_preserved reg then s
  else plcrash_async_thread_state_clear_reg s reg

/-- Source lines 287-309: `plcrash_async_thread_state_clear_volatile_regs`
iterates registers 0 .. reg_count-1 applying the loop body. -/
def plcrash_async_thread_state_clear_volatile_regs (ts : ThreadState) : ThreadState :=
  (List.range plcrash_async_thread_state_get_reg_count).foldl clear_volatile_step ts

/-- Source lines 83-100: `arm_dwarf_table`, pairs of
(plcrash regnum, DWARF regnum). -/
def arm_dwarf_table : List (Nat × Nat) :=
  [(PLCRASH_ARM_R0, 0), (PLCRASH_ARM_R1, 1), (PLCRASH_ARM_R2, 2),
   (PLCRASH_ARM_R3, 3), (PLCRASH_ARM_R4, 4), (PLCRASH_ARM_R5, 5),
   (PLCRASH_ARM_R6, 6), (PLCRASH_ARM_R7, 7), (PLCRASH_ARM_R8, 8),
   (PLCRASH_ARM_R9, 9), (PLCRASH_ARM_R10, 10), (PLCRASH_ARM_R11, 11),
   (PLCRASH_ARM_R12, 12), (PLCRASH_ARM_SP, 13), (PLCRASH_ARM_LR, 14),
   (PLCRASH_ARM_PC, 15)]

/-- Source lines 312-322: linear search of `arm_dwarf_table` by regnum;
the bool return plus out-parameter is modelled as an `Option`. -/
def plcrash_async_thread_state_map_reg_to_dwarf (ts : ThreadState) (regnum : Nat) : Option Nat :=
  (arm_dwarf_table.find? (fun e => e.1 == regnum)).map Prod.snd

/-- Source lines 325-335: linear search of `arm_dwarf_table` by DWARF
number; the bool return plus out-parameter is modelled as an `Option`. -/
def plcrash_async_thread_state_map_dwarf_to_reg (ts : ThreadState) (dwarf_reg : Nat) : Option Nat :=
  (arm_dwarf_table.find? (fun e => e.2 == dwarf_reg)).map Prod.fst

/- ===================== ObjC metadata parser: definitions ===================== -/

/-- The subset of `plcrash_error_t` exercised by the modelled code. -/
inductive plcrash_error where
  | ESUCCESS
  | EUNKNOWN
  | EINVAL
  | EINTERNAL
  | EACCESS
  | ENOTFOUND
  | EINVALID_DATA
deriving DecidableEq, Repr

/-- Source line 59: `RW_REALIZED = (1<<31)`. -/
def RW_REALIZED : Nat := 1 <<< 31

/-- Source line 66: `RW_COPIED_RO = (1<<27)`. -/
def RW_COPIED_RO : Nat := 1 <<< 27

/-- One method tuple as passed to `plcrash_async_objc_found_method_cb`:
the metaclass flag, the class and method name (modelled as numeric
identifiers for the string objects) and the IMP address. -/
structure ObjCMethod where
  isClassMethod : Bool
  className : Nat
  methodName : Nat
  imp : Nat
deriving DecidableEq, Repr

/-- The class-cache portion of `plcrash_async_objc_cache_t` together with
the `gotObjC2Info` flag.  `classCacheKeysAllocated` models
`classCacheKeys != NULL`; the key and value arrays are modelled as
functions from slot index to stored word (0 = empty, as left by the
zero-filling `vm_allocate`). -/
structure ObjCCache where
  gotObjC2Info : Bool
  classCacheSize : Nat
  classCacheKeysAllocated : Bool
  classCacheKeys : Nat → Nat
  classCacheValues : Nat → Nat

/-- Source lines 187-189: `cache_index`. -/
def cache_index (context : ObjCCache) (key : Nat) : Nat :=
  (key >>> 2) % context.classCacheSize

/-- Source lines 209-217: `cache_lookup`. -/
def cache_lookup (context : ObjCCache) (key : Nat) : Nat :=
  if 0 < context.classCacheSize then
    if context.classCacheKeys (cache_index context key) == key then
      context.classCacheValues (cache_index context key)
    else 0
  else 0

/-- Source lines 248-255: the slot update of `cache_set`: a simple hash
table with no chaining; an occupied bucket (nonzero stored key) is left
untouched, the existing entry wins. -/
def cache_set_slot (context : ObjCCache) (key value : Nat) : ObjCCache :=
  if context.classCacheKeys (cache_index context key) == 0 then
    { context with
      classCacheKeys := Function.update context.classCacheKeys (cache_index context key) key,
      classCacheValues := Function.update context.classCacheValues (cache_index context key) value }
  else context

/-- Source lines 227-255: `cache_set`.  On first use the cache memory is
allocated (1024 zero-filled slots); `allocOK` models the outcome of
`vm_allocate`, whose failure sets `classCacheSize` to 0 and bails out. -/
def cache_set (allocOK : Bool) (context : ObjCCache) (key value : Nat) : ObjCCache :=
  if context.classCacheKeysAllocated = false then
    if allocOK = false then { context with classCacheSize := 0 }
    else
      cache_set_slot
        { context with
          classCacheKeysAllocated := true, classCacheSize := 1024,
          classCacheKeys := fun _ => 0, classCacheValues := fun _ => 0 }
        key value
  else cache_set_slot context key value

/-- An initialized, never-used ObjC cache
(`plcrash_async_objc_cache_init`, source lines 837-847). -/
def cacheInit : ObjCCache :=
  { gotObjC2Info := false, classCacheSize := 0, classCacheKeysAllocated := false,
    classCacheKeys := fun _ => 0, classCacheValues := fun _ => 0 }

/-- A cache whose slot storage is already allocated and empty. -/
def cacheAllocated : ObjCCache :=
  { gotObjC2Info := false, classCacheSize := 1024, classCacheKeysAllocated := true,
    classCacheKeys := fun _ => 0, classCacheValues := fun _ => 0 }

/-- The outcomes of the two sub-parses that one
`plcrash_async_objc_parse` call can run against one image: what
`pl_async_objc_parse_from_module_info` (ObjC1) and
`pl_async_objc_parse_from_data_section` (ObjC2) would return. -/
structure ObjCParseEnv where
  objc1Result : plcrash_error
  objc2Result : plcrash_error

/-- The observable behaviour of one `plcrash_async_objc_parse` call: its
return code, the updated `gotObjC2Info` flag, and whether the ObjC1 and
ObjC2 parses were attempted. -/
structure ObjCParseStep where
  err : plcrash_error
  gotObjC2Info : Bool
  triedObjC1 : Bool
  triedObjC2 : Bool

/-- Source lines 874-898: `plcrash_async_objc_parse` (with a non-NULL
cache).  If `gotObjC2Info` is clear, try ObjC1, otherwise pretend
NotFound; on NotFound fall through to ObjC2, and on ObjC2 success set
`gotObjC2Info`. -/
def plcrash_async_objc_parse_model (env : ObjCParseEnv) (got : Bool) : ObjCParseStep :=
  let err1 := if got = false then env.objc1Result else plcrash_error.ENOTFOUND
  if err1 = plcrash_error.ENOTFOUND then
    { err := env.objc2Result,
      gotObjC2Info := if env.objc2Result = plcrash_error.ESUCCESS then true else got,
      triedObjC1 := !got,
      triedObjC2 := true }
  else
    { err := err1, gotObjC2Info := got, triedObjC1 := !got, triedObjC2 := false }

/-- A sequence of `plcrash_async_objc_parse` calls within one capture,
threading the `gotObjC2Info` flag; returns the observable step of every
call. -/
def objc_parse_run (got : Bool) : List ObjCParseEnv → List ObjCParseStep
  | [] => []
  | env :: rest =>
    let st := plcrash_async_objc_parse_model env got
    st :: objc_parse_run st.gotObjC2Info rest

/-- Source lines 918-924: `pl_async_objc_find_method_search_callback`:
remember the largest IMP that is ≥ the best so far and ≤ the searched
IMP. -/
def pl_async_objc_find_method_search_callback (searchIMP best imp : Nat) : Nat :=
  if best ≤ imp && imp ≤ searchIMP then imp else best

/-- The first pass of `plcrash_async_objc_find_method`: fold the search
callback over the IMPs emitted by the parse, starting from `bestIMP = 0`
(source lines 953-957). -/
def find_method_search_pass (searchIMP : Nat) (imps : List Nat) : Nat :=
  imps.foldl (fun best imp => pl_async_objc_find_method_search_callback searchIMP best imp) 0

/-- Source lines 933-940: `pl_async_objc_find_method_call_callback` for
one emitted method.  The Bool component of the state models
`outerCallback != NULL`; the list accumulates the methods passed to the
outer callback, and the callback pointer is nulled after the first
invocation. -/
def call_pass_step (searchIMP : Nat) (acc : List ObjCMethod × Bool) (m : ObjCMethod) :
    List ObjCMethod × Bool :=
  if m.imp == searchIMP && acc.2 then (acc.1 ++ [m], false) else acc

/-- The second pass of `plcrash_async_objc_find_method`: the call
callback folded over the emitted methods. -/
def find_method_call_pass (searchIMP : Nat) (methods : List ObjCMethod) :
    List ObjCMethod × Bool :=
  methods.foldl (call_pass_step searchIMP) ([], true)

/-- Source lines 952-975: `plcrash_async_objc_find_method`.  The parse is
modelled by the method list it emits and the error it returns; both
passes see the same emitted sequence.  Returns the error code and the
methods handed to the user callback. -/
def plcrash_async_objc_find_method (emitted : List ObjCMethod)
    (parseErr : plcrash_error) (imp : Nat) : plcrash_error × List ObjCMethod :=
  if parseErr ≠ plcrash_error.ESUCCESS then (parseErr, [])
  else
    let bestIMP := find_method_search_pass imp (emitted.map ObjCMethod.imp)
    if bestIMP = 0 then (plcrash_error.ENOTFOUND, [])
    else (parseErr, (find_method_call_pass bestIMP emitted).1)

/-- The environment of one `pl_async_objc_parse_objc2_class` call on the
cache-miss path: the raw `data_rw` pointer of the class structure, the
outcomes of the memory operations, the fields read from the class_rw
structure, and the abstracted remainder of the function (class-name
read and method emission) once `data_ro` is resolved. -/
structure Objc2ClassEnv where
  data_rw_raw : Nat
  dataRwRead : plcrash_error
  flags : Nat
  data_ro : Nat
  copyRead : plcrash_error
  remapOk : Bool
  allocOK : Bool
  restErr : plcrash_error
  restMethods : List ObjCMethod

/-- Source line 572: `dataPtr &= ~(pl_vm_address_t)3`, clearing the two
low flag bits of a 64-bit address. -/
def mask_data_rw (a : Nat) : Nat := a &&& (UINT64_MASK ^^^ 3)

/-- Source lines 560-738: `pl_async_objc_parse_objc2_class`.  Returns the
error code, the updated cache and the methods emitted for this class.
On a cache miss: a failed read of the class_rw structure returns that
read's error; an unrealized class (RW_REALIZED clear) is skipped with
ESUCCESS; with RW_COPIED_RO set data_ro is copied via the async memory
reader, otherwise it is remapped inside __objc_const — in either case a
failure skips the class with ESUCCESS (the source does not store those
failures into err), and success stores the resolved data_ro address in
the cache under the masked data_rw address and continues with the
remainder.  On a cache hit the remainder runs against the cached
address. -/
def pl_async_objc_parse_objc2_class (env : Objc2ClassEnv) (cache : ObjCCache) :
    plcrash_error × ObjCCache × List ObjCMethod :=
  let dataPtr := mask_data_rw env.data_rw_raw
  if cache_lookup cache dataPtr = 0 then
    if env.dataRwRead ≠ plcrash_error.ESUCCESS then (env.dataRwRead, cache, [])
    else if env.flags &&& RW_REALIZED = 0 then (plcrash_error.ESUCCESS, cache, [])
    else if env.flags &&& RW_COPIED_RO ≠ 0 then
      if env.copyRead ≠ plcrash_error.ESUCCESS then (plcrash_error.ESUCCESS, cache, [])
      else (env.restErr, cache_set env.allocOK cache dataPtr env.data_ro, env.restMethods)
    else
      if env.remapOk = false then (plcrash_error.ESUCCESS, cache, [])
      else (env.restErr, cache_set env.allocOK cache dataPtr env.data_ro, env.restMethods)
  else
    (env.restErr, cache, env.restMethods)

/-- One entry of the `__objc_classlist` iteration of
`pl_async_objc_parse_from_data_section`: the remap outcome for the class
structure and the class parse environment, and the same for its
metaclass. -/
structure Objc2ClassListEntry where
  classRemapOk : Bool
  classEnv : Objc2ClassEnv
  metaRemapOk : Bool
  metaEnv : Objc2ClassEnv

/-- Source lines 779-825: the class-list loop of
`pl_async_objc_parse_from_data_section`.  A failed remap of a class or
metaclass structure stops the loop with the current err (ESUCCESS); a
class or metaclass parse returning an error stops the loop with that
error; otherwise the loop continues with the next entry. -/
def objc2_classlist_loop (cache : ObjCCache) :
    List Objc2ClassListEntry → plcrash_error × ObjCCache × List ObjCMethod
  | [] => (plcrash_error.ESUCCESS, cache, [])
  | e :: rest =>
    if e.classRemapOk = false then (plcrash_error.ESUCCESS, cache, [])
    else
      let p1 := pl_async_objc_parse_objc2_class e.classEnv cache
      if p1.1 ≠ plcrash_error.ESUCCESS then p1
      else if e.metaRemapOk = false then (plcrash_error.ESUCCESS, p1.2.1, p1.2.2)
      else
        let p2 := pl_async_objc_parse_objc2_class e.metaEnv p1.2.1
        if p2.1 ≠ plcrash_error.ESUCCESS then (p2.1, p2.2.1, p1.2.2 ++ p2.2.2)
        else
          let p3 := objc2_classlist_loop p2.2.1 rest
          (p3.1, p3.2.1, p1.2.2 ++ p2.2.2 ++ p3.2.2)

/-- Source lines 750-829: `pl_async_objc_parse_from_data_section`:
map the sections (outcome `mapErr`), remap the class-pointer list
(outcome `classPtrsRemapOk`, whose failure returns with err still
ESUCCESS), then run the class-list loop. -/
def pl_async_objc_parse_from_data_section (mapErr : plcrash_error)
    (classPtrsRemapOk : Bool) (entries : List Objc2ClassListEntry)
    (cache : ObjCCache) : plcrash_error × ObjCCache × List ObjCMethod :=
  if mapErr ≠ plcrash_error.ESUCCESS then (mapErr, cache, [])
  else if classPtrsRemapOk = false then (mapErr, cache, [])
  else objc2_classlist_loop cache entries

/-- A sample method tuple. -/
def sampleMethod : ObjCMethod :=
  { isClassMethod := false, className := 1, methodName := 2, imp := 300 }

/-- A method tuple whose IMP lies above the searched IP 10. -/
def highMethod : ObjCMethod :=
  { isClassMethod := false, className := 1, methodName := 2, imp := 12 }

/-- A class whose data_rw read fails with EACCESS. -/
def objc2EnvBadRw : Objc2ClassEnv :=
  { data_rw_raw := 16, dataRwRead := plcrash_error.EACCESS, flags := 0, data_ro := 0,
    copyRead := plcrash_error.ESUCCESS, remapOk := true, allocOK := true,
    restErr := plcrash_error.ESUCCESS, restMethods := [] }

/-- An unrealized class (RW_REALIZED clear): skipped. -/
def objc2EnvSkip : Objc2ClassEnv :=
  { data_rw_raw := 48, dataRwRead := plcrash_error.ESUCCESS, flags := 0, data_ro := 0,
    copyRead := plcrash_error.ESUCCESS, remapOk := true, allocOK := true,
    restErr := plcrash_error.ESUCCESS, restMethods := [] }

/-- A realized, non-copied class that parses fully and emits one
method. -/
def objc2EnvGood : Objc2ClassEnv :=
  { data_rw_raw := 32, dataRwRead := plcrash_error.ESUCCESS, flags := RW_REALIZED,
    data_ro := 100, copyRead := plcrash_error.ESUCCESS, remapOk := true, allocOK := true,
    restErr := plcrash_error.ESUCCESS, restMethods := [sampleMethod] }

/-- A realized, heap-copied class (RW_COPIED_RO set). -/
def objc2EnvCopied : Objc2ClassEnv :=
  { data_rw_raw := 64, dataRwRead := plcrash_error.ESUCCESS,
    flags := RW_REALIZED ||| RW_COPIED_RO,
    data_ro := 200, copyRead := plcrash_error.ESUCCESS, remapOk := true, allocOK := true,
    restErr := plcrash_error.ESUCCESS, restMethods := [sampleMethod] }

/-- A realized, non-copied class whose data_ro remap fails. -/
def objc2EnvRoFail : Objc2ClassEnv :=
  { data_rw_raw := 80, dataRwRead := plcrash_error.ESUCCESS, flags := RW_REALIZED,
    data_ro := 100, copyRead := plcrash_error.ESUCCESS, remapOk := false, allocOK := true,
    restErr := plcrash_error.ESUCCESS, restMethods := [] }

/-- Class-list entry whose class has a failing data_rw read; the
metaclass side is an unrealized skip. -/
def entryBadRw : Objc2ClassListEntry :=
  { classRemapOk := true, classEnv := objc2EnvBadRw,
    metaRemapOk := true, metaEnv := objc2EnvSkip }

/-- Class-list entry that parses fully and emits one method. -/
def entryGood : Objc2ClassListEntry :=
  { classRemapOk := true, classEnv := objc2EnvGood,
    metaRemapOk := true, metaEnv := objc2EnvSkip }

/-- A parse environment with no ObjC1 data and successful ObjC2 data. -/
def parseEnvSample : ObjCParseEnv :=
  { objc1Result := plcrash_error.ENOTFOUND, objc2Result := plcrash_error.ESUCCESS }

/-- A sample thread state with every register valid, for concrete
evaluation. -/
def tsAllValid : ThreadState :=
  { r := fun _ => 0, sp := 101, lr := 102, pc := 103, cpsr := 104,
    valid_regs := 2 ^ 17 - 1 }

/-- A sample thread state with no register valid and nonzero register
values, for concrete evaluation. -/
def tsNoneValid : ThreadState :=
  { r := fun _ => 42, sp := 7, lr := 8, pc := 9, cpsr := 10,
    valid_regs := 0 }

/- ===================== ARM thread state: lemmas ===================== -/

lemma clear_volatile_step_fields (s : ThreadState) (a : Nat) :
    (clear_volatile_step s a).r = s.r ∧ (clear_volatile_step s a).sp = s.sp
    ∧ (clear_volatile_step s a).lr = s.lr ∧ (clear_volatile_step s a).pc = s.pc
    ∧ (clear_volatile_step s a).cpsr = s.cpsr := by
  unfold clear_volatile_step plcrash_async_thread_state_clear_reg
  repeat' split
  all_goals exact ⟨rfl, rfl, rfl, rfl, rfl⟩

lemma clear_volatile_foldl_fields (L : List Nat) (s : ThreadState) :
    (L.foldl clear_volatile_step s).r = s.r ∧ (L.foldl clear_volatile_step s).sp = s.sp
    ∧ (L.foldl clear_volatile_step s).lr = s.lr ∧ (L.foldl clear_volatile_step s).pc = s.pc
    ∧ (L.foldl clear_volatile_step s).cpsr = s.cpsr := by
  induction L generalizing s with
  | nil => exact ⟨rfl, rfl, rfl, rfl, rfl⟩
  | cons a L ih =>
    rw [List.foldl_cons]
    obtain ⟨h1, h2, h3, h4, h5⟩ := ih (clear_volatile_step s a)
    obtain ⟨g1, g2, g3, g4, g5⟩ := clear_volatile_step_fields s a
    exact ⟨h1.trans g1, h2.trans g2, h3.trans g3, h4.trans g4, h5.trans g5⟩

lemma testBit_uint64_mask (j : Nat) (hj : j < 64) : UINT64_MASK.testBit j = true := by
  unfold UINT64_MASK
  rw [Nat.testBit_two_pow_sub_one]
  simp [hj]

lemma clear_volatile_step_testBit (s : ThreadState) (a j : Nat) (hj : j < 64) :
    (clear_volatile_step s a).valid_regs.testBit j
      = (s.valid_regs.testBit j && !(decide (a = j) && !arm_preserved a)) := by
  have hmask := testBit_uint64_mask j hj
  unfold clear_volatile_step plcrash_async_thread_state_clear_reg
    plcrash_async_thread_state_has_reg
  by_cases h1 : s.valid_regs.testBit a
  · by_cases h2 : arm_preserved a
    · simp [h1, h2]
    · by_cases h3 : a = j
      · subst h3
        simp [h1, h2, Nat.testBit_and, Nat.testBit_xor, Nat.one_shiftLeft, hmask,
          Nat.testBit_two_pow_self]
      · simp [h1, h2, h3, Nat.testBit_and, Nat.testBit_xor, Nat.one_shiftLeft, hmask,
          Nat.testBit_two_pow_of_ne h3]
  · by_cases h3 : a = j
    · subst h3
      simp [h1]
    · simp [h1, h3]

lemma clear_volatile_foldl_testBit (L : List Nat) (s : ThreadState) (j : Nat) (hj : j < 64) :
    (L.foldl clear_volatile_step s).valid_regs.testBit j
      = (s.valid_regs.testBit j && !(decide (j ∈ L) && !arm_preserved j)) := by
  induction L generalizing s with
  | nil => simp
  | cons a L ih =>
    rw [List.foldl_cons, ih, clear_volatile_step_testBit s a j hj]
    by_cases h3 : a = j
    · subst h3
      by_cases hp : arm_preserved a <;> simp [hp]
    · simp [h3, Ne.symm h3]

lemma clear_volatile_foldl_id (L : List Nat) (s : ThreadState)
    (h : ∀ a ∈ L, plcrash_async_thread_state_has_reg s a = true → arm_preserved a = true) :
    L.foldl clear_volatile_step s = s := by
  induction L with
  | nil => rfl
  | cons a L ih =>
    have hstep : clear_volatile_step s a = s := by
      unfold clear_volatile_step
      by_cases h1 : plcrash_async_thread_state_has_reg s a
      · simp [h1, h a (List.mem_cons_self a L) h1]
      · simp [h1]
    rw [List.foldl_cons, hstep]
    exact ih (fun b hb hbv => h b (List.mem_cons_of_mem a hb) hbv)

lemma get_reg_fields_congr (ts₁ ts₂ : ThreadState) (hr : ts₁.r = ts₂.r)
    (hsp : ts₁.sp = ts₂.sp) (hlr : ts₁.lr = ts₂.lr) (hpc : ts₁.pc = ts₂.pc)
    (hcpsr : ts₁.cpsr = ts₂.cpsr) (reg : Nat) :
    plcrash_async_thread_state_get_reg ts₁ reg
      = plcrash_async_thread_state_get_reg ts₂ reg := by
  unfold plcrash_async_thread_state_get_reg
  rw [hr, hsp, hlr, hpc, hcpsr]

/-- C9: applying clear_volatiles twice yields the same thread state as
applying it once: the second pass finds every non-preserved register
already invalid and performs no clear. -/
theorem clear_volatile_regs_idempotent (ts : ThreadState) :
    plcrash_async_thread_state_clear_volatile_regs
        (plcrash_async_thread_state_clear_volatile_regs ts)
      = plcrash_async_thread_state_clear_volatile_regs ts := by
  unfold plcrash_async_thread_state_clear_volatile_regs
  apply clear_volatile_foldl_id
  intro a ha hv
  have hj : a < 17 := by
    simpa [plcrash_async_thread_state_get_reg_count, PLCRASH_ARM_LAST_REG,
      PLCRASH_ARM_CPSR] using List.mem_range.mp ha
  by_contra hp
  rw [plcrash_async_thread_state_has_reg,
    clear_volatile_foldl_testBit _ ts a (by omega)] at hv
  simp [Bool.not_eq_true] at hp
  simp [plcrash_async_thread_state_get_reg_count, PLCRASH_ARM_LAST_REG,
    PLCRASH_ARM_CPSR, List.mem_range, hj, hp] at hv

/-- C1 counterexample: on a thread state with every register valid,
clear_volatiles clears the validity bits of SP and LR, although the claim
counts SP and the return-address register LR among the callee-saved set
that remains valid. -/
theorem clear_volatile_regs_sp_lr_counterexample :
    plcrash_async_thread_state_has_reg tsAllValid PLCRASH_ARM_SP = true
    ∧ plcrash_async_thread_state_has_reg
        (plcrash_async_thread_state_clear_volatile_regs tsAllValid) PLCRASH_ARM_SP = false
    ∧ plcrash_async_thread_state_has_reg tsAllValid PLCRASH_ARM_LR = true
    ∧ plcrash_async_thread_state_has_reg
        (plcrash_async_thread_state_clear_volatile_regs tsAllValid) PLCRASH_ARM_LR = false := by
  decide

/-- C1 (amended): the ARM callee-saved set of clear_volatiles is exactly
R4-R8, R10, R11 (without SP and LR): a register stays valid iff it was
valid and is in that set, and every register's value is unchanged. -/
theorem clear_volatile_regs_spec (ts : ThreadState) (reg : Nat) (hreg : reg < 17) :
    plcrash_async_thread_state_has_reg
        (plcrash_async_thread_state_clear_volatile_regs ts) reg
      = (plcrash_async_thread_state_has_reg ts reg && arm_preserved reg)
    ∧ plcrash_async_thread_state_get_reg
        (plcrash_async_thread_state_clear_volatile_regs ts) reg
      = plcrash_async_thread_state_get_reg ts reg := by
  constructor
  · rw [plcrash_async_thread_state_has_reg, plcrash_async_thread_state_has_reg,
      plcrash_async_thread_state_clear_volatile_regs,
      clear_volatile_foldl_testBit _ ts reg (by omega)]
    have hmem : reg ∈ List.range plcrash_async_thread_state_get_reg_count := by
      simp [plcrash_async_thread_state_get_reg_count, PLCRASH_ARM_LAST_REG,
        PLCRASH_ARM_CPSR, List.mem_range]
      omega
    by_cases hp : arm_preserved reg <;> simp [hmem, hp]
  · obtain ⟨h1, h2, h3, h4, h5⟩ :=
      clear_volatile_foldl_fields
        (List.range plcrash_async_thread_state_get_reg_count) ts
    exact get_reg_fields_congr _ _ h1 h2 h3 h4 h5 reg

/-- C1 witness: the amended theorem at the all-valid sample state and
register R4. -/
theorem clear_volatile_regs_spec_witness :
    4 < 17
    ∧ (plcrash_async_thread_state_has_reg
          (plcrash_async_thread_state_clear_volatile_regs tsAllValid) 4
        = (plcrash_async_thread_state_has_reg tsAllValid 4 && arm_preserved 4)
      ∧ plcrash_async_thread_state_get_reg
          (plcrash_async_thread_state_clear_volatile_regs tsAllValid) 4
        = plcrash_async_thread_state_get_reg tsAllValid 4) :=
  ⟨by decide, clear_volatile_regs_spec tsAllValid 4 (by decide)⟩

/-- C2 counterexample: on a thread state whose validity bits are all
clear, a read of R0 still returns the stored value rather than an
error. -/
theorem get_reg_no_validity_check_counterexample :
    plcrash_async_thread_state_has_reg tsNoneValid PLCRASH_ARM_R0 = false
    ∧ plcrash_async_thread_state_get_reg tsNoneValid PLCRASH_ARM_R0 = some 42
    ∧ plcrash_async_thread_state_get_reg tsNoneValid PLCRASH_ARM_R0 ≠ none := by
  refine ⟨by decide, by decide, by decide⟩

/-- C2 (amended): for every known register, get_reg returns the stored
value; the validity bitset is not consulted, so the result is unchanged
under any modification of valid_regs. -/
theorem get_reg_ignores_validity (ts : ThreadState) (v reg : Nat) (hreg : reg < 17) :
    (plcrash_async_thread_state_get_reg ts reg).isSome = true
    ∧ plcrash_async_thread_state_get_reg { ts with valid_regs := v } reg
      = plcrash_async_thread_state_get_reg ts reg := by
  constructor
  · interval_cases reg <;> rfl
  · interval_cases reg <;> rfl

/-- C2 witness: the amended theorem at the no-valid-registers sample
state, register SP, valid_regs overwritten by 5. -/
theorem get_reg_ignores_validity_witness :
    13 < 17
    ∧ ((plcrash_async_thread_state_get_reg tsNoneValid 13).isSome = true
      ∧ plcrash_async_thread_state_get_reg { tsNoneValid with valid_regs := 5 } 13
        = plcrash_async_thread_state_get_reg tsNoneValid 13) :=
  ⟨by decide, get_reg_ignores_validity tsNoneValid 5 13 (by decide)⟩

/-- C6: every register of the DWARF table (numbers 0..15, i.e. R0-R12,
SP, LR, PC) round-trips through map_reg_to_dwarf and map_dwarf_to_reg;
CPSR is absent from the table so map_reg_to_dwarf fails; every DWARF
number above 15 has no table entry so map_dwarf_to_reg fails. -/
theorem dwarf_table_roundtrip (ts : ThreadState) :
    (∀ r, r ≤ 15 →
       ∃ d, plcrash_async_thread_state_map_reg_to_dwarf ts r = some d
         ∧ plcrash_async_thread_state_map_dwarf_to_reg ts d = some r)
    ∧ plcrash_async_thread_state_map_reg_to_dwarf ts PLCRASH_ARM_CPSR = none
    ∧ (∀ d, 15 < d → plcrash_async_thread_state_map_dwarf_to_reg ts d = none) := by
  refine ⟨?_, ?_, ?_⟩
  · intro r hr
    refine ⟨r, ?_, ?_⟩
    · simp only [plcrash_async_thread_state_map_reg_to_dwarf]
      interval_cases r <;> decide
    · simp only [plcrash_async_thread_state_map_dwarf_to_reg]
      interval_cases r <;> decide
  · simp only [plcrash_async_thread_state_map_reg_to_dwarf]
    decide
  · intro d hd
    have hbound : ∀ e ∈ arm_dwarf_table, e.2 ≤ 15 := by decide
    simp only [plcrash_async_thread_state_map_dwarf_to_reg, Option.map_eq_none']
    rw [List.find?_eq_none]
    intro x hx
    have := hbound x hx
    simp only [beq_iff_eq]
    omega

/-- C6 witness: the round-trip at R4, the CPSR failure, and the failure
at DWARF number 99. -/
theorem dwarf_table_roundtrip_witness :
    (∃ d, plcrash_async_thread_state_map_reg_to_dwarf tsAllValid 4 = some d
       ∧ plcrash_async_thread_state_map_dwarf_to_reg tsAllValid d = some 4)
    ∧ plcrash_async_thread_state_map_reg_to_dwarf tsAllValid PLCRASH_ARM_CPSR = none
    ∧ plcrash_async_thread_state_map_dwarf_to_reg tsAllValid 99 = none :=
  ⟨(dwarf_table_roundtrip tsAllValid).1 4 (by decide),
   (dwarf_table_roundtrip tsAllValid).2.1,
   (dwarf_table_roundtrip tsAllValid).2.2 99 (by decide)⟩

/- ===================== ObjC metadata parser: theorems ===================== -/

/-- C7 counterexample: after `cache_set 4 5` the slot of key 4 is occupied
by key 4 itself (not by a different key) and the cache is allocated, yet
`cache_set 4 7` followed by `cache_lookup 4` returns 5, not 7. -/
theorem cache_set_same_key_counterexample :
    (cache_set true cacheAllocated 4 5).classCacheKeys
        (cache_index (cache_set true cacheAllocated 4 5) 4) = 4
    ∧ cache_lookup (cache_set true (cache_set true cacheAllocated 4 5) 4 7) 4 = 5
    ∧ (5 : Nat) ≠ 7 := by
  refine ⟨by decide, by decide, by decide⟩

/-- C7 (amended): for every cache state (under the representation
invariant that an allocated cache has a positive size, as established by
the allocation in cache_set itself): on an unallocated cache whose
allocation fails, cache_set only zeroes the size and the following
lookup misses (the could-not-be-allocated exception); on an unallocated
cache whose first-use allocation succeeds, set-then-lookup returns v
(all fresh slots are empty); on an allocated cache, set-then-lookup
returns v when the slot of k is empty (stored key 0), and when the slot
is occupied — whether by a different key or by k itself from an earlier
set — cache_set leaves the whole cache, in particular the stored key
and the stored value, unchanged (first writer wins, no eviction). -/
theorem cache_set_lookup_spec (c : ObjCCache) (k v : Nat) (ok : Bool)
    (hinv : c.classCacheKeysAllocated = true → 0 < c.classCacheSize) :
    (c.classCacheKeysAllocated = false → ok = false →
       cache_set ok c k v = { c with classCacheSize := 0 }
       ∧ cache_lookup (cache_set ok c k v) k = 0)
    ∧ (c.classCacheKeysAllocated = false → ok = true →
       cache_lookup (cache_set ok c k v) k = v)
    ∧ (c.classCacheKeysAllocated = true → c.classCacheKeys (cache_index c k) = 0 →
       cache_lookup (cache_set ok c k v) k = v)
    ∧ (c.classCacheKeysAllocated = true → c.classCacheKeys (cache_index c k) ≠ 0 →
       cache_set ok c k v = c) := by
  refine ⟨?_, ?_, ?_, ?_⟩
  · intro hna hok
    constructor
    · simp [cache_set, hna, hok]
    · simp [cache_set, cache_lookup, hna, hok]
  · intro hna hok
    simp [cache_set, cache_set_slot, cache_lookup, cache_index, hna, hok,
      Function.update_same]
  · intro halloc hempty
    have hsize := hinv halloc
    rw [cache_index] at hempty
    simp [cache_set, cache_set_slot, cache_lookup, cache_index, halloc, hempty, hsize,
      Function.update_same]
  · intro halloc hocc
    rw [cache_index] at hocc
    simp [cache_set, cache_set_slot, cache_index, halloc, hocc]

/-- C7 witness: the amended theorem on the never-used cache with failing
allocation (set leaves only a zeroed size and lookup misses), on the
never-used cache with successful allocation (set-then-lookup returns
the value), on the empty allocated cache (set-then-lookup returns the
value) and on the cache already holding key 8 (set leaves it
unchanged). -/
theorem cache_set_lookup_spec_witness :
    (cache_set false cacheInit 4 5 = { cacheInit with classCacheSize := 0 }
      ∧ cache_lookup (cache_set false cacheInit 4 5) 4 = 0)
    ∧ cache_lookup (cache_set true cacheInit 4 5) 4 = 5
    ∧ cache_lookup (cache_set true cacheAllocated 8 9) 8 = 9
    ∧ cache_set true (cache_set true cacheAllocated 8 9) 8 11
        = cache_set true cacheAllocated 8 9 :=
  ⟨(cache_set_lookup_spec cacheInit 4 5 false (by decide)).1 rfl rfl,
   (cache_set_lookup_spec cacheInit 4 5 true (by decide)).2.1 rfl rfl,
   (cache_set_lookup_spec cacheAllocated 8 9 true (fun _ => by decide)).2.2.1
     rfl (by decide),
   (cache_set_lookup_spec (cache_set true cacheAllocated 8 9) 8 11 true
     (fun _ => by decide)).2.2.2 (by decide) (by decide)⟩

/-- C8: a parse call with gotObjC2Info clear attempts ObjC1 and falls
through to ObjC2 exactly when ObjC1 reports NotFound; gotObjC2Info is set
exactly when an attempted ObjC2 parse succeeds and is never cleared; and
in any run of calls starting with the flag set, no call attempts ObjC1
and the flag stays set. -/
theorem objc_parse_objc1_fallthrough_sticky :
    (∀ (env : ObjCParseEnv) (got : Bool),
       (plcrash_async_objc_parse_model env got).triedObjC1 = !got
       ∧ (plcrash_async_objc_parse_model env got).triedObjC2
           = (got || decide (env.objc1Result = plcrash_error.ENOTFOUND))
       ∧ (plcrash_async_objc_parse_model env got).gotObjC2Info
           = (got || ((plcrash_async_objc_parse_model env got).triedObjC2
                && decide (env.objc2Result = plcrash_error.ESUCCESS))))
    ∧ (∀ (envs : List ObjCParseEnv) (st : ObjCParseStep),
       st ∈ objc_parse_run true envs → st.triedObjC1 = false ∧ st.gotObjC2Info = true) := by
  constructor
  · intro env got
    cases got
    · by_cases h1 : env.objc1Result = plcrash_error.ENOTFOUND <;>
        by_cases h2 : env.objc2Result = plcrash_error.ESUCCESS <;>
        simp [plcrash_async_objc_parse_model, h1, h2]
    · by_cases h2 : env.objc2Result = plcrash_error.ESUCCESS <;>
        simp [plcrash_async_objc_parse_model, h2]
  · intro envs
    induction envs with
    | nil =>
      intro st hst
      simp [objc_parse_run] at hst
    | cons env rest ih =>
      intro st hst
      have hgot : (plcrash_async_objc_parse_model env true).gotObjC2Info = true := by
        by_cases h2 : env.objc2Result = plcrash_error.ESUCCESS <;>
          simp [plcrash_async_objc_parse_model, h2]
      have htried : (plcrash_async_objc_parse_model env true).triedObjC1 = false := by
        by_cases h2 : env.objc2Result = plcrash_error.ESUCCESS <;>
          simp [plcrash_async_objc_parse_model, h2]
      rw [objc_parse_run] at hst
      rcases List.mem_cons.mp hst with rfl | hmem
      · exact ⟨htried, hgot⟩
      · exact ih st (hgot ▸ hmem)

/-- C8 witness: the per-call characterization at the sample environment
with the flag clear, and the no-ObjC1 guarantee for the one-call run
starting with the flag set. -/
theorem objc_parse_objc1_fallthrough_sticky_witness :
    ((plcrash_async_objc_parse_model parseEnvSample false).triedObjC1 = !false
      ∧ (plcrash_async_objc_parse_model parseEnvSample false).triedObjC2
          = (false || decide (parseEnvSample.objc1Result = plcrash_error.ENOTFOUND))
      ∧ (plcrash_async_objc_parse_model parseEnvSample false).gotObjC2Info
          = (false || ((plcrash_async_objc_parse_model parseEnvSample false).triedObjC2
               && decide (parseEnvSample.objc2Result = plcrash_error.ESUCCESS))))
    ∧ ((plcrash_async_objc_parse_model parseEnvSample true).triedObjC1 = false
      ∧ (plcrash_async_objc_parse_model parseEnvSample true).gotObjC2Info = true) :=
  ⟨objc_parse_objc1_fallthrough_sticky.1 parseEnvSample false,
   objc_parse_objc1_fallthrough_sticky.2 [parseEnvSample]
     (plcrash_async_objc_parse_model parseEnvSample true)
     (by simp [objc_parse_run])⟩

lemma search_callback_eq_max (s b i : Nat) :
    pl_async_objc_find_method_search_callback s b i = if i ≤ s then max b i else b := by
  unfold pl_async_objc_find_method_search_callback
  by_cases h2 : i ≤ s
  · by_cases h1 : b ≤ i
    · simp [h1, h2, Nat.max_eq_right h1]
    · simp [h1, h2, Nat.max_eq_left (Nat.le_of_not_le h1)]
  · simp [h2]

lemma search_pass_foldl_filter (s : Nat) (l : List Nat) (acc : Nat) :
    l.foldl (fun best imp => pl_async_objc_find_method_search_callback s best imp) acc
      = (l.filter (fun i => decide (i ≤ s))).foldl max acc := by
  induction l generalizing acc with
  | nil => rfl
  | cons a l ih =>
    rw [List.foldl_cons, search_callback_eq_max]
    by_cases h : a ≤ s
    · simp [List.filter_cons, h, ih]
    · simp [List.filter_cons, h, ih]

lemma search_pass_foldl_le (s : Nat) (l : List Nat) (acc : Nat) (hacc : acc ≤ s) :
    l.foldl (fun best imp => pl_async_objc_find_method_search_callback s best imp) acc ≤ s := by
  induction l generalizing acc with
  | nil => simpa using hacc
  | cons a l ih =>
    rw [List.foldl_cons]
    apply ih
    rw [search_callback_eq_max]
    by_cases h : a ≤ s
    · simpa [h] using Nat.max_le.mpr ⟨hacc, h⟩
    · simpa [h] using hacc

/-- C5: the first pass of find_method computes the maximum of the emitted
IMPs that are ≤ the searched IP (and 0 when none is), so every IMP
contributing to bestIMP is ≤ the searched IP; and when bestIMP is 0 after
a successful parse, find_method returns NotFound and never invokes the
user callback. -/
theorem find_method_search_spec (searchIMP : Nat) (imps : List Nat)
    (emitted : List ObjCMethod) (parseErr : plcrash_error) :
    find_method_search_pass searchIMP imps
        = (imps.filter (fun i => decide (i ≤ searchIMP))).foldl max 0
    ∧ find_method_search_pass searchIMP imps ≤ searchIMP
    ∧ (parseErr = plcrash_error.ESUCCESS →
       find_method_search_pass searchIMP (emitted.map ObjCMethod.imp) = 0 →
       plcrash_async_objc_find_method emitted parseErr searchIMP
         = (plcrash_error.ENOTFOUND, [])) := by
  refine ⟨search_pass_foldl_filter searchIMP imps 0,
    search_pass_foldl_le searchIMP imps 0 (Nat.zero_le _), ?_⟩
  intro hp hz
  simp [plcrash_async_objc_find_method, hp, hz]

/-- C5 witness: search IP 10 against emitted IMPs 3, 12, 7, and the
NotFound outcome when the only emitted IMP 12 lies above the IP. -/
theorem find_method_search_spec_witness :
    (find_method_search_pass 10 [3, 12, 7]
        = ([3, 12, 7].filter (fun i => decide (i ≤ 10))).foldl max 0
      ∧ find_method_search_pass 10 [3, 12, 7] ≤ 10
      ∧ plcrash_async_objc_find_method [highMethod] plcrash_error.ESUCCESS 10
          = (plcrash_error.ENOTFOUND, [])) :=
  ⟨(find_method_search_spec 10 [3, 12, 7] [highMethod] plcrash_error.ESUCCESS).1,
   (find_method_search_spec 10 [3, 12, 7] [highMethod] plcrash_error.ESUCCESS).2.1,
   (find_method_search_spec 10 [3, 12, 7] [highMethod] plcrash_error.ESUCCESS).2.2
     rfl (by decide)⟩

lemma call_pass_foldl_false (s : Nat) (l : List ObjCMethod) (acc : List ObjCMethod) :
    l.foldl (call_pass_step s) (acc, false) = (acc, false) := by
  induction l with
  | nil => rfl
  | cons a l ih =>
    rw [List.foldl_cons, show call_pass_step s (acc, false) a = (acc, false) by
      simp [call_pass_step]]
    exact ih

lemma call_pass_foldl_true (s : Nat) (l : List ObjCMethod) (acc : List ObjCMethod) :
    l.foldl (call_pass_step s) (acc, true)
      = match l.find? (fun m => m.imp == s) with
        | some m => (acc ++ [m], false)
        | none => (acc, true) := by
  induction l generalizing acc with
  | nil => rfl
  | cons a l ih =>
    by_cases h : (a.imp == s) = true
    · rw [List.foldl_cons, show call_pass_step s (acc, true) a = (acc ++ [a], false) by
        simp [call_pass_step, h], call_pass_foldl_false,
        @List.find?_cons_of_pos _ (fun m => m.imp == s) a l h]
    · rw [List.foldl_cons, show call_pass_step s (acc, true) a = (acc, true) by
        simp [call_pass_step, h], ih,
        @List.find?_cons_of_neg _ (fun m => m.imp == s) a l (by simpa using h)]

lemma call_pass_len (s : Nat) (l : List ObjCMethod) :
    (find_method_call_pass s l).1 = (l.find? (fun m => m.imp == s)).toList
    ∧ (find_method_call_pass s l).1.length ≤ 1 := by
  have h := call_pass_foldl_true s l []
  constructor
  · rw [find_method_call_pass, h]
    cases l.find? (fun m => m.imp == s) <;> simp
  · rw [find_method_call_pass, h]
    cases l.find? (fun m => m.imp == s) <;> simp

/-- C10: in the call pass the outer callback fires exactly for the first
emitted method whose IMP equals the searched bestIMP (the callback
pointer is nulled after the first invocation, so later methods with the
same IMP do not trigger it), hence find_method invokes the user callback
at most once. -/
theorem find_method_callback_at_most_once (searchIMP : Nat) (methods : List ObjCMethod)
    (emitted : List ObjCMethod) (parseErr : plcrash_error) (ip : Nat) :
    (find_method_call_pass searchIMP methods).1
        = (methods.find? (fun m => m.imp == searchIMP)).toList
    ∧ (find_method_call_pass searchIMP methods).1.length ≤ 1
    ∧ (plcrash_async_objc_find_method emitted parseErr ip).2.length ≤ 1 := by
  refine ⟨(call_pass_len searchIMP methods).1, (call_pass_len searchIMP methods).2, ?_⟩
  unfold plcrash_async_objc_find_method
  by_cases hp : parseErr = plcrash_error.ESUCCESS
  · by_cases hz : find_method_search_pass ip (emitted.map ObjCMethod.imp) = 0
    · simp [hp, hz]
    · simpa [hp, hz] using
        (call_pass_len (find_method_search_pass ip (emitted.map ObjCMethod.imp)) emitted).2
  · simp [hp]

/-- C3 counterexample: in a two-class list whose first class has a
failing data_rw read (EACCESS), the parse stops with that error and the
second class's method is never emitted, although the second class parses
fine on its own — the failure is not limited to skipping the single
class. -/
theorem objc2_rw_read_failure_counterexample :
    (pl_async_objc_parse_from_data_section plcrash_error.ESUCCESS true
        [entryBadRw, entryGood] cacheInit).1 = plcrash_error.EACCESS
    ∧ (pl_async_objc_parse_from_data_section plcrash_error.ESUCCESS true
        [entryBadRw, entryGood] cacheInit).2.2 = []
    ∧ (pl_async_objc_parse_from_data_section plcrash_error.ESUCCESS true
        [entryGood] cacheInit).2.2 = [sampleMethod] := by
  refine ⟨by decide, by decide, by decide⟩

/-- C3 (amended): a failed copy or remap of a single class's data_ro
resolution skips only that class (the class parse returns ESUCCESS with
no methods, so the class-list loop continues with the remaining
classes, whose output is preserved); a failed read of a class's data_rw
structure instead terminates the class-list parse with that error and
the remaining classes are not parsed. -/
theorem objc2_single_class_failure_spec :
    (∀ (env : Objc2ClassEnv) (cache : ObjCCache),
       cache_lookup cache (mask_data_rw env.data_rw_raw) = 0 →
       env.dataRwRead = plcrash_error.ESUCCESS →
       env.flags &&& RW_REALIZED ≠ 0 →
       ((env.flags &&& RW_COPIED_RO ≠ 0 ∧ env.copyRead ≠ plcrash_error.ESUCCESS)
         ∨ (env.flags &&& RW_COPIED_RO = 0 ∧ env.remapOk = false)) →
       pl_async_objc_parse_objc2_class env cache = (plcrash_error.ESUCCESS, cache, []))
    ∧ (∀ (e : Objc2ClassListEntry) (rest : List Objc2ClassListEntry) (cache : ObjCCache),
       e.classRemapOk = true →
       (pl_async_objc_parse_objc2_class e.classEnv cache).1 = plcrash_error.ESUCCESS →
       e.metaRemapOk = true →
       (pl_async_objc_parse_objc2_class e.metaEnv
           (pl_async_objc_parse_objc2_class e.classEnv cache).2.1).1
         = plcrash_error.ESUCCESS →
       objc2_classlist_loop cache (e :: rest)
         = ((objc2_classlist_loop
               (pl_async_objc_parse_objc2_class e.metaEnv
                 (pl_async_objc_parse_objc2_class e.classEnv cache).2.1).2.1 rest).1,
            (objc2_classlist_loop
               (pl_async_objc_parse_objc2_class e.metaEnv
                 (pl_async_objc_parse_objc2_class e.classEnv cache).2.1).2.1 rest).2.1,
            (pl_async_objc_parse_objc2_class e.classEnv cache).2.2
              ++ (pl_async_objc_parse_objc2_class e.metaEnv
                    (pl_async_objc_parse_objc2_class e.classEnv cache).2.1).2.2
              ++ (objc2_classlist_loop
                    (pl_async_objc_parse_objc2_class e.metaEnv
                      (pl_async_objc_parse_objc2_class e.classEnv cache).2.1).2.1 rest).2.2))
    ∧ (∀ (e : Objc2ClassListEntry) (rest : List Objc2ClassListEntry) (cache : ObjCCache),
       e.classRemapOk = true →
       cache_lookup cache (mask_data_rw e.classEnv.data_rw_raw) = 0 →
       e.classEnv.dataRwRead ≠ plcrash_error.ESUCCESS →
       objc2_classlist_loop cache (e :: rest) = (e.classEnv.dataRwRead, cache, [])) := by
  refine ⟨?_, ?_, ?_⟩
  · intro env cache hmiss hread hreal hfail
    rcases hfail with ⟨hc, hf⟩ | ⟨hc, hf⟩ <;>
      simp [pl_async_objc_parse_objc2_class, hmiss, hread, hreal, hc, hf]
  · intro e rest cache h1 h2 h3 h4
    simp [objc2_classlist_loop, h1, h2, h3, h4]
  · intro e rest cache h1 hmiss hbad
    have hp1 : pl_async_objc_parse_objc2_class e.classEnv cache
        = (e.classEnv.dataRwRead, cache, []) := by
      simp [pl_async_objc_parse_objc2_class, hmiss, hbad]
    simp [objc2_classlist_loop, h1, hp1, hbad]

/-- C3 witness: the three parts of the amended theorem on concrete
inputs: the remap-failure class skipped with success, the fully-parsing
entry continuing the (empty) remainder, and the data_rw-failure entry
aborting the loop. -/
theorem objc2_single_class_failure_spec_witness :
    pl_async_objc_parse_objc2_class objc2EnvRoFail cacheInit
        = (plcrash_error.ESUCCESS, cacheInit, [])
    ∧ objc2_classlist_loop cacheInit [entryGood]
        = ((objc2_classlist_loop
              (pl_async_objc_parse_objc2_class entryGood.metaEnv
                (pl_async_objc_parse_objc2_class entryGood.classEnv cacheInit).2.1).2.1 []).1,
           (objc2_classlist_loop
              (pl_async_objc_parse_objc2_class entryGood.metaEnv
                (pl_async_objc_parse_objc2_class entryGood.classEnv cacheInit).2.1).2.1 []).2.1,
           (pl_async_objc_parse_objc2_class entryGood.classEnv cacheInit).2.2
             ++ (pl_async_objc_parse_objc2_class entryGood.metaEnv
                   (pl_async_objc_parse_objc2_class entryGood.classEnv cacheInit).2.1).2.2
             ++ (objc2_classlist_loop
                   (pl_async_objc_parse_objc2_class entryGood.metaEnv
                     (pl_async_objc_parse_objc2_class entryGood.classEnv cacheInit).2.1).2.1
                   []).2.2)
    ∧ objc2_classlist_loop cacheInit [entryBadRw]
        = (entryBadRw.classEnv.dataRwRead, cacheInit, []) :=
  ⟨objc2_single_class_failure_spec.1 objc2EnvRoFail cacheInit (by decide) rfl
     (by decide) (Or.inr ⟨by decide, rfl⟩),
   objc2_single_class_failure_spec.2.1 entryGood [] cacheInit rfl (by decide) rfl (by decide),
   objc2_single_class_failure_spec.2.2 entryBadRw [] cacheInit rfl (by decide) (by decide)⟩

/-- C4: for a cache-miss class whose data_rw read succeeds: if
RW_REALIZED (bit 31) is clear the class is skipped with no method
emitted and the cache untouched; if realized and RW_COPIED_RO (bit 27)
is set, data_ro is obtained via the async memory reader copy and on
success the resolved address is stored in the cache under the masked
data_rw address; if realized and RW_COPIED_RO is clear, data_ro is
obtained by remapping in __objc_const, with the same cache update. -/
theorem objc2_class_flags_spec (env : Objc2ClassEnv) (cache : ObjCCache)
    (hmiss : cache_lookup cache (mask_data_rw env.data_rw_raw) = 0)
    (hread : env.dataRwRead = plcrash_error.ESUCCESS) :
    (env.flags &&& RW_REALIZED = 0 →
       pl_async_objc_parse_objc2_class env cache = (plcrash_error.ESUCCESS, cache, []))
    ∧ (env.flags &&& RW_REALIZED ≠ 0 → env.flags &&& RW_COPIED_RO ≠ 0 →
       env.copyRead = plcrash_error.ESUCCESS →
       pl_async_objc_parse_objc2_class env cache
         = (env.restErr,
            cache_set env.allocOK cache (mask_data_rw env.data_rw_raw) env.data_ro,
            env.restMethods))
    ∧ (env.flags &&& RW_REALIZED ≠ 0 → env.flags &&& RW_COPIED_RO = 0 →
       env.remapOk = true →
       pl_async_objc_parse_objc2_class env cache
         = (env.restErr,
            cache_set env.allocOK cache (mask_data_rw env.data_rw_raw) env.data_ro,
            env.restMethods)) := by
  refine ⟨?_, ?_, ?_⟩
  · intro hskip
    simp [pl_async_objc_parse_objc2_class, hmiss, hread, hskip]
  · intro hreal hcopy hok
    simp [pl_async_objc_parse_objc2_class, hmiss, hread, hreal, hcopy, hok]
  · intro hreal hcopy hok
    simp [pl_async_objc_parse_objc2_class, hmiss, hread, hreal, hcopy, hok]

/-- C4 witness: the three branches on concrete classes — the unrealized
skip, the heap-copied class and the remapped class — against the
freshly-initialized cache. -/
theorem objc2_class_flags_spec_witness :
    pl_async_objc_parse_objc2_class objc2EnvSkip cacheInit
        = (plcrash_error.ESUCCESS, cacheInit, [])
    ∧ pl_async_objc_parse_objc2_class objc2EnvCopied cacheInit
        = (objc2EnvCopied.restErr,
           cache_set objc2EnvCopied.allocOK cacheInit
             (mask_data_rw objc2EnvCopied.data_rw_raw) objc2EnvCopied.data_ro,
           objc2EnvCopied.restMethods)
    ∧ pl_async_objc_parse_objc2_class objc2EnvGood cacheInit
        = (objc2EnvGood.restErr,
           cache_set objc2EnvGood.allocOK cacheInit
             (mask_data_rw objc2EnvGood.data_rw_raw) objc2EnvGood.data_ro,
           objc2EnvGood.restMethods) :=
  ⟨(objc2_class_flags_spec objc2EnvSkip cacheInit (by decide) rfl).1 (by decide),
   (objc2_class_flags_spec objc2EnvCopied cacheInit (by decide) rfl).2.1
     (by decide) (by decide) rfl,
   (objc2_class_flags_spec objc2EnvGood cacheInit (by decide) rfl).2.2
     (by decide) (by decide) rfl⟩
